import Mathlib

/-!
Shallow embedding of src/auth.c: the client-side SSH user-authentication
subsystem (RFC 4252) of libssh.  Pure data is translated directly; the
stateful session is an explicit record threaded through each operation;
the external collaborators (transport, PKI, agent, allocator) are an
explicit environment record whose fields say how each collaborator call
comes out.  Line numbers in comments refer to src/src/auth.c.
-/

namespace LibsshAuth

/-- Authentication state of the session (enum ssh_auth_state_e, the
session field auth_state read at lines 72, 108 and mutated by the packet
callbacks). -/
inductive AuthState where
  | NONE
  | KBDINT_SENT
  | INFO
  | PK_OK
  | PARTIAL
  | FAILED
  | SUCCESS
  | ERROR
deriving DecidableEq

/-- Pending-call marker of the session (enum ssh_pending_call_e, the
session field pending_call_state switched on at lines 346, 480, 642, 778,
1208). -/
inductive PendingCall where
  | NONE
  | AUTH_NONE
  | AUTH_OFFER_PUBKEY
  | AUTH_PUBKEY
  | AUTH_AGENT
  | AUTH_KBDINT
deriving DecidableEq

/-- Result of a driver call (SSH_AUTH_ERROR, SSH_AUTH_DENIED,
SSH_AUTH_PARTIAL, SSH_AUTH_SUCCESS, SSH_AUTH_INFO, SSH_AUTH_AGAIN).
SSH_ERROR returned at lines 489 and 1217 has the same value -1 as
SSH_AUTH_ERROR and is embedded as ERROR. -/
inductive AuthResult where
  | ERROR
  | DENIED
  | PARTIAL
  | SUCCESS
  | INFO
  | AGAIN
deriving DecidableEq

/-- Result of ssh_service_request (line 66): SSH_OK, SSH_AGAIN or
SSH_ERROR. -/
inductive ServiceRc where
  | OK
  | AGAIN
  | ERROR
deriving DecidableEq

/-- Result of a PKI file operation (ssh_pki_import_pubkey_file and
friends): SSH_OK, SSH_EOF (file missing) or SSH_ERROR. -/
inductive PkiRc where
  | OK
  | EOF
  | ERR
deriving DecidableEq

/-- One field serialized into the outgoing packet buffer: buffer_add_u8,
buffer_add_u32 (value kept abstract, the htonl at line 1548 only fixes
byte order) and buffer_add_ssh_string. -/
inductive WireField where
  | u8 (b : Nat)
  | u32 (n : Nat)
  | str (s : String)
deriving DecidableEq

/-- The negotiated crypto of the session (current_crypto at lines
243-250): the delayed-compression requests from key exchange and the two
live compression switches. -/
structure Crypto where
  delayed_compress_in : Bool
  delayed_compress_out : Bool
  do_compress_in : Bool
  do_compress_out : Bool
deriving DecidableEq

/-- Session-level connection state: only the transition to
SSH_SESSION_STATE_AUTHENTICATED (line 242) matters to this module. -/
inductive SessionState where
  | AUTHENTICATING
  | AUTHENTICATED
deriving DecidableEq

/-- The keyboard-interactive scratch (struct ssh_kbdint_struct): name,
instruction, nprompts prompts with echo flags, and the lazily allocated
answers array (an unset slot is the NULL pointer, embedded as none). -/
structure Kbdint where
  name : String
  instruction : String
  nprompts : Nat
  prompts : List String
  echo : List Bool
  nanswers : Nat
  answers : Option (List (Option String))
deriving DecidableEq

/-- The SSH session as seen by src/auth.c.  out_buffer is the packet
under construction, wire the packets handed to packet_send, burned the
strings scrubbed so far (each BURN_STRING / string_burn call appends the
string it zeroes), fatal_error whether ssh_set_error with SSH_FATAL (or
the out-of-memory error) has been recorded. -/
structure Session where
  username : String
  auth_state : AuthState
  pending_call_state : PendingCall
  auth_methods : Nat
  session_state : SessionState
  current_crypto : Option Crypto
  kbdint : Option Kbdint
  banner : Option String
  fatal_error : Bool
  out_buffer : List WireField
  wire : List (List WireField)
  burned : List String
deriving DecidableEq

/-- A key as handed to the publickey drivers (ssh_key): its algorithm
name (type_c), the flag checks ssh_key_is_public / ssh_key_is_private,
and the blobs the PKI collaborator produces for it
(ssh_pki_export_pubkey_blob, ssh_pki_do_sign, ssh_pki_do_sign_agent). -/
structure SshKey where
  key_type : String
  is_public : Bool
  is_private : Bool
  blob : String
  sig : String
  agent_sig : String
deriving DecidableEq

/-- Environment of one driver call: how the service request, the buffer
allocations, packet_send and the packet-handling loop come out, and the
auth_state the packet callbacks have left when the loop returns. -/
structure DriverEnv where
  service_rc : ServiceRc
  alloc_ok : Bool
  send_ok : Bool
  handle_ok : Bool
  response_state : AuthState
deriving DecidableEq

/-- Termination predicate of the response wait (lines 70-79): every
state but NONE and KBDINT_SENT is terminal. -/
def ssh_auth_response_termination (st : AuthState) : Bool :=
  match st with
  | .NONE => false
  | .KBDINT_SENT => false
  | _ => true

/-- Lines 94-133, the result value of ssh_userauth_get_response: an
SSH_ERROR from the packet loop maps to AUTH_ERROR (99-102), an unmet
termination predicate to AUTH_AGAIN (103-106), and a terminal auth_state
to its result (108-130). -/
def response_rc (env : DriverEnv) : AuthResult :=
  if env.handle_ok = false then .ERROR
  else if ssh_auth_response_termination env.response_state = false then .AGAIN
  else
    match env.response_state with
    | .ERROR => .ERROR
    | .FAILED => .DENIED
    | .INFO => .INFO
    | .PARTIAL => .PARTIAL
    | .PK_OK => .SUCCESS
    | .SUCCESS => .SUCCESS
    | .KBDINT_SENT => .ERROR
    | .NONE => .ERROR

/-- Lines 94-133, ssh_userauth_get_response: the packet loop leaves
auth_state at whatever the callbacks set (env.response_state), and the
call returns the mapped result. -/
def ssh_userauth_get_response (env : DriverEnv) (s : Session) : AuthResult × Session :=
  (response_rc env, { s with auth_state := env.response_state })

/-- The pending label shared by the marker-managed drivers (lines
416-420 and their copies): get the response and clear the pending marker
on any result other than AUTH_AGAIN. -/
def finish_response (env : DriverEnv) (s : Session) : AuthResult × Session :=
  let r := ssh_userauth_get_response env s
  if r.1 = .AGAIN then r
  else (r.1, { r.2 with pending_call_state := .NONE })

/-- Successful packet_send: the accumulated out_buffer leaves as one
packet on the wire. -/
def packet_send_ok (s : Session) : Session :=
  { s with wire := s.wire ++ [s.out_buffer], out_buffer := [] }

/-- The fail label of every driver (ssh_set_error_oom and buffer_reinit,
for example lines 423-427). -/
def oom_fail (s : Session) : Session :=
  { s with fatal_error := true, out_buffer := [] }

/-- Common USERAUTH_REQUEST prefix every driver emits (spec 4.2; for
example lines 364-407): message byte 50, username (argument if given,
else the session default), service ssh-connection, method name. -/
def userauth_request_prefix (user : String) (method : String) : List WireField :=
  [WireField.u8 50, WireField.str user, WireField.str "ssh-connection", WireField.str method]

/-- Lines 336-428, ssh_userauth_none (after the wrapper deciding NULL
handling): switch on the pending marker (346-354: proceed on NONE,
resume on AUTH_NONE, fatal error otherwise), request the service
(356-361), build the request (364-407), set auth_state NONE and the
AUTH_NONE marker (409-410), send (411-414: an SSH_ERROR from
packet_send returns AUTH_ERROR at once, before the pending label), then
await the response and clear the marker on any non-AGAIN result
(416-420). -/
def ssh_userauth_none_body (env : DriverEnv) (username : Option String) (s : Session) :
    AuthResult × Session :=
  match s.pending_call_state with
  | .AUTH_NONE => finish_response env s
  | .NONE =>
    match env.service_rc with
    | .AGAIN => (.AGAIN, s)
    | .ERROR => (.ERROR, s)
    | .OK =>
      if env.alloc_ok = false then
        (.ERROR, oom_fail s)
      else
        let s1 := { s with
          out_buffer := s.out_buffer ++ userauth_request_prefix (username.getD s.username) "none",
          auth_state := AuthState.NONE,
          pending_call_state := PendingCall.AUTH_NONE }
        if env.send_ok = false then
          (.ERROR, s1)
        else
          finish_response env (packet_send_ok s1)
  | _ => (.ERROR, { s with fatal_error := true })

/-- Lines 458-594, ssh_userauth_try_publickey after its NULL-session
check: reject a key that is not public with a fatal error (469-472),
switch on the pending marker (480-490: resume on AUTH_OFFER_PUBKEY),
request the service, emit the offer request with boolean 0, the
algorithm and the public-key blob (500-573), set the AUTH_OFFER_PUBKEY
marker (575-576), send, then await and clear on non-AGAIN (582-586). -/
def ssh_userauth_try_publickey_body (env : DriverEnv) (username : Option String)
    (pubkey : Option SshKey) (s : Session) : AuthResult × Session :=
  match pubkey with
  | none => (.ERROR, { s with fatal_error := true })
  | some key =>
    if key.is_public = false then
      (.ERROR, { s with fatal_error := true })
    else
      match s.pending_call_state with
      | .AUTH_OFFER_PUBKEY => finish_response env s
      | .NONE =>
        match env.service_rc with
        | .AGAIN => (.AGAIN, s)
        | .ERROR => (.ERROR, s)
        | .OK =>
          if env.alloc_ok = false then
            (.ERROR, oom_fail s)
          else
            let s1 := { s with
              out_buffer := s.out_buffer ++
                userauth_request_prefix (username.getD s.username) "publickey" ++
                [WireField.u8 0, WireField.str key.key_type, WireField.str key.blob],
              auth_state := AuthState.NONE,
              pending_call_state := PendingCall.AUTH_OFFER_PUBKEY }
            if env.send_ok = false then
              (.ERROR, s1)
            else
              finish_response env (packet_send_ok s1)
      | _ => (.ERROR, { s with fatal_error := true })

/-- Lines 620-768, ssh_userauth_publickey after its NULL-session check:
reject a key that is not private (631-634), switch on the pending marker
(642-652: resume on AUTH_PUBKEY), request the service, emit the signing
request with boolean 1, algorithm, public blob and the signature the PKI
collaborator computes over the session buffer (662-747), set the
AUTH_PUBKEY marker (749-750), send, then await and clear on non-AGAIN
(756-760). -/
def ssh_userauth_publickey_body (env : DriverEnv) (username : Option String)
    (privkey : Option SshKey) (s : Session) : AuthResult × Session :=
  match privkey with
  | none => (.ERROR, { s with fatal_error := true })
  | some key =>
    if key.is_private = false then
      (.ERROR, { s with fatal_error := true })
    else
      match s.pending_call_state with
      | .AUTH_PUBKEY => finish_response env s
      | .NONE =>
        match env.service_rc with
        | .AGAIN => (.AGAIN, s)
        | .ERROR => (.ERROR, s)
        | .OK =>
          if env.alloc_ok = false then
            (.ERROR, oom_fail s)
          else
            let s1 := { s with
              out_buffer := s.out_buffer ++
                userauth_request_prefix (username.getD s.username) "publickey" ++
                [WireField.u8 1, WireField.str key.key_type, WireField.str key.blob,
                 WireField.str key.sig],
              auth_state := AuthState.NONE,
              pending_call_state := PendingCall.AUTH_PUBKEY }
            if env.send_ok = false then
              (.ERROR, s1)
            else
              finish_response env (packet_send_ok s1)
      | _ => (.ERROR, { s with fatal_error := true })

/-- Lines 771-904, the static ssh_userauth_agent_publickey: same shape
as the signing driver but the signature comes from the agent
(ssh_pki_do_sign_agent, line 874) and the marker is AUTH_AGENT (778-788
and 885-886). -/
def ssh_userauth_agent_publickey_body (env : DriverEnv) (username : Option String)
    (key : SshKey) (s : Session) : AuthResult × Session :=
  match s.pending_call_state with
  | .AUTH_AGENT => finish_response env s
  | .NONE =>
    match env.service_rc with
    | .AGAIN => (.AGAIN, s)
    | .ERROR => (.ERROR, s)
    | .OK =>
      if env.alloc_ok = false then
        (.ERROR, oom_fail s)
      else
        let s1 := { s with
          out_buffer := s.out_buffer ++
            userauth_request_prefix (username.getD s.username) "publickey" ++
            [WireField.u8 1, WireField.str key.key_type, WireField.str key.blob,
             WireField.str key.agent_sig],
          auth_state := AuthState.NONE,
          pending_call_state := PendingCall.AUTH_AGENT }
        if env.send_ok = false then
          (.ERROR, s1)
        else
          finish_response env (packet_send_ok s1)
  | _ => (.ERROR, { s with fatal_error := true })

/-- Lines 1195-1310, ssh_userauth_password (which has no NULL-session
check): switch on the pending marker, where the resume case at line 1211
is SSH_PENDING_CALL_AUTH_OFFER_PUBKEY, emit the password request with
boolean 0 and the password string (1228-1289), set the marker - line
1292 stores SSH_PENDING_CALL_AUTH_OFFER_PUBKEY, the publickey-offer
marker, not a password-specific one - send, then await and clear on
non-AGAIN (1298-1302). -/
def ssh_userauth_password_body (env : DriverEnv) (username : Option String)
    (password : String) (s : Session) : AuthResult × Session :=
  match s.pending_call_state with
  | .AUTH_OFFER_PUBKEY => finish_response env s
  | .NONE =>
    match env.service_rc with
    | .AGAIN => (.AGAIN, s)
    | .ERROR => (.ERROR, s)
    | .OK =>
      if env.alloc_ok = false then
        (.ERROR, oom_fail s)
      else
        let s1 := { s with
          out_buffer := s.out_buffer ++
            userauth_request_prefix (username.getD s.username) "password" ++
            [WireField.u8 0, WireField.str password],
          auth_state := AuthState.NONE,
          pending_call_state := PendingCall.AUTH_OFFER_PUBKEY }
        if env.send_ok = false then
          (.ERROR, s1)
        else
          finish_response env (packet_send_ok s1)
  | _ => (.ERROR, { s with fatal_error := true })

/-- Modelled from the spec: KBDINT_MAX_PROMPT, the ceiling on prompts in
one INFO_REQUEST, is an implementation constant defined in a header that
is not under src/ (the spec suggests 32; the theorems below do not
depend on the value, only on the comparison at lines 1656-1657). -/
def KBDINT_MAX_PROMPT : Nat := 32

/-- Modelled from the spec: the authentication-methods bitset constants
SSH_AUTH_METHOD_PASSWORD, _PUBLICKEY, _HOSTBASED, _INTERACTIVE are
defined in a header that is not under src/; the spec only requires a
union of distinct flags, so they are embedded as distinct bits. -/
def SSH_AUTH_METHOD_PASSWORD : Nat := 2

/-- Modelled from the spec: see SSH_AUTH_METHOD_PASSWORD. -/
def SSH_AUTH_METHOD_PUBLICKEY : Nat := 4

/-- Modelled from the spec: see SSH_AUTH_METHOD_PASSWORD. -/
def SSH_AUTH_METHOD_HOSTBASED : Nat := 8

/-- Modelled from the spec: see SSH_AUTH_METHOD_PASSWORD. -/
def SSH_AUTH_METHOD_INTERACTIVE : Nat := 16

/-- The C library strstr as the failure handler uses it at lines
207-218: does needle occur in hay as a contiguous substring. -/
def strstr_list (hay needle : List Char) : Bool :=
  match hay with
  | [] => needle.isEmpty
  | _ :: t => needle.isPrefixOf hay || strstr_list t needle

/-- strstr over the embedding's strings. -/
def strstrS (hay needle : String) : Bool :=
  strstr_list hay.toList needle.toList

/-- Lines 207-218: the four strstr checks, each OR-ing its flag into the
running auth_methods value. -/
def apply_methods_flags (base : Nat) (m : String) : Nat :=
  let v := if strstrS m "password" then base ||| SSH_AUTH_METHOD_PASSWORD else base
  let v := if strstrS m "keyboard-interactive" then v ||| SSH_AUTH_METHOD_INTERACTIVE else v
  let v := if strstrS m "publickey" then v ||| SSH_AUTH_METHOD_PUBLICKEY else v
  let v := if strstrS m "hostbased" then v ||| SSH_AUTH_METHOD_HOSTBASED else v
  v

/-- Lines 169-225, ssh_packet_userauth_failure.  The payload is the
parsed (method-name-list, partial) pair, or none when the string or the
byte cannot be read (lines 178-183: fatal error, auth_state ERROR).
With partial set, auth_state becomes PARTIAL (line 192); otherwise
auth_state becomes FAILED and auth_methods is cleared first (lines
197-205).  Both branches then run the strstr flag rebuild (207-218). -/
def ssh_packet_userauth_failure (payload : Option (String × Bool)) (s : Session) : Session :=
  match payload with
  | none => { s with fatal_error := true, auth_state := AuthState.ERROR }
  | some (auth_list, partialFlag) =>
    if partialFlag then
      { s with auth_state := AuthState.PARTIAL,
               auth_methods := apply_methods_flags s.auth_methods auth_list }
    else
      { s with auth_state := AuthState.FAILED,
               auth_methods := apply_methods_flags 0 auth_list }

/-- Lines 234-253, ssh_packet_userauth_success: auth_state SUCCESS,
session authenticated, and each compression direction whose negotiated
crypto asked for delayed compression is switched on. -/
def ssh_packet_userauth_success (s : Session) : Session :=
  let s1 := { s with auth_state := AuthState.SUCCESS,
                     session_state := SessionState.AUTHENTICATED }
  match s1.current_crypto with
  | none => s1
  | some c =>
    { s1 with current_crypto := some { c with
        do_compress_out := if c.delayed_compress_out then true else c.do_compress_out,
        do_compress_in := if c.delayed_compress_in then true else c.do_compress_in } }

/-- Lines 142-160, ssh_packet_userauth_banner: a readable banner string
replaces the stored one; a malformed packet is only logged. -/
def ssh_packet_userauth_banner (payload : Option String) (s : Session) : Session :=
  match payload with
  | none => s
  | some b => { s with banner := some b }

/-- Lines 1342-1352, ssh_kbdint_new: a zeroed scratch. -/
def ssh_kbdint_new : Kbdint :=
  { name := "", instruction := "", nprompts := 0, prompts := [], echo := [],
    nanswers := 0, answers := none }

/-- Lines 1355-1385: the strings BURN_STRING zeroes when the scratch is
freed - every allocated prompt (indices below nprompts) and every
allocated answer (non-NULL slots at indices below nanswers). -/
def ssh_kbdint_free_burns (k : Kbdint) : List String :=
  k.prompts.take k.nprompts ++
    (match k.answers with
     | none => []
     | some ans => (ans.take k.nanswers).filterMap id)

/-- An INFO_REQUEST packet as the parser reads it (lines 1606-1609 and
the per-prompt loop at 1691-1711): the three header strings (none when
missing), the prompt count it carries, and the (prompt, echo) pairs
that are actually present in the packet. -/
structure InfoRequestPacket where
  name : Option String
  instruction : Option String
  lang : Option String
  nprompts : Nat
  prompts : List (String × Bool)
deriving DecidableEq

/-- Lines 1596-1715, ssh_packet_userauth_info_request.  A missing header
string is a fatal error leaving the scratch as it was (1611-1618).  The
scratch is created or cleaned and takes the new name and instruction
(1621-1652).  A prompt count of 0 or above KBDINT_MAX_PROMPT is a fatal
error that frees the scratch and leaves auth_state alone (1656-1665), as
is a packet shorter than its announced prompt count (1694-1700).
Otherwise the nprompts prompts and echo flags are stored, nanswers is
set to nprompts (line 1668), and auth_state becomes INFO (1712). -/
def ssh_packet_userauth_info_request (pkt : InfoRequestPacket) (s : Session) : Session :=
  match pkt.name, pkt.instruction, pkt.lang with
  | some nm, some ins, some _ =>
    let kbd := { ssh_kbdint_new with name := nm, instruction := ins }
    if pkt.nprompts = 0 ∨ pkt.nprompts > KBDINT_MAX_PROMPT then
      { s with fatal_error := true, kbdint := none }
    else if pkt.prompts.length < pkt.nprompts then
      { s with fatal_error := true, kbdint := none }
    else
      let taken := pkt.prompts.take pkt.nprompts
      { s with auth_state := AuthState.INFO,
               kbdint := some { kbd with
                 nprompts := pkt.nprompts,
                 nanswers := pkt.nprompts,
                 prompts := taken.map Prod.fst,
                 echo := taken.map Prod.snd } }
  | _, _, _ => { s with fatal_error := true }

/-- Lines 263-278, ssh_packet_userauth_pk_ok: message number 60 is
dispatched by context - in state KBDINT_SENT it is parsed as an
INFO_REQUEST, otherwise the state becomes PK_OK and the payload is not
read. -/
def ssh_packet_userauth_pk_ok (pkt : InfoRequestPacket) (s : Session) : Session :=
  if s.auth_state = AuthState.KBDINT_SENT then
    ssh_packet_userauth_info_request pkt s
  else
    { s with auth_state := AuthState.PK_OK }

/-- Lines 1424-1524, ssh_userauth_kbdint_init: any service-request
result other than SSH_OK (including SSH_AGAIN) returns AUTH_ERROR
(1431-1434); the request carries the empty language string and the
submethods (empty when NULL); auth_state becomes KBDINT_SENT before the
send; no pending marker is touched; the response is awaited and
returned as is (1516-1518). -/
def ssh_userauth_kbdint_init (env : DriverEnv) (username : Option String)
    (submethods : Option String) (s : Session) : AuthResult × Session :=
  match env.service_rc with
  | .OK =>
    if env.alloc_ok = false then
      (.ERROR, oom_fail s)
    else
      let s1 := { s with
        out_buffer := s.out_buffer ++
          userauth_request_prefix (username.getD s.username) "keyboard-interactive" ++
          [WireField.str "", WireField.str (submethods.getD "")],
        auth_state := AuthState.KBDINT_SENT }
      if env.send_ok = false then
        (.ERROR, s1)
      else
        ssh_userauth_get_response env (packet_send_ok s1)
  | _ => (.ERROR, s)

/-- The string the response loop at lines 1553-1558 sends for slot i: the
stored answer when the array is allocated and the slot non-NULL, the
empty string otherwise. -/
def kbdint_answer_at (k : Kbdint) (i : Nat) : String :=
  match k.answers with
  | none => ""
  | some ans => ((ans.getD i none).getD "")

/-- Lines 1537-1588, ssh_userauth_kbdint_send, reached with a live
scratch k (session->kbdint): emit message 61, the u32 prompt count, and
one response string per prompt in index order, burning each temporary
copy after it is added (1564); then set auth_state KBDINT_SENT, burn and
free the scratch and NULL session->kbdint (1571-1573) before the send,
so the scratch is gone whether packet_send succeeds (await response) or
fails (AUTH_ERROR, 1576-1577).  The out-of-memory path (fail label)
keeps the scratch. -/
def ssh_userauth_kbdint_send (env : DriverEnv) (k : Kbdint) (s : Session) :
    AuthResult × Session :=
  if env.alloc_ok = false then
    (.ERROR, oom_fail s)
  else
    let sent := (List.range k.nprompts).map (kbdint_answer_at k)
    let s1 := { s with
      out_buffer := s.out_buffer ++
        [WireField.u8 61, WireField.u32 k.nprompts] ++ sent.map WireField.str,
      auth_state := AuthState.KBDINT_SENT,
      kbdint := none,
      burned := s.burned ++ sent ++ ssh_kbdint_free_burns k }
    if env.send_ok = false then
      (.ERROR, s1)
    else
      ssh_userauth_get_response env (packet_send_ok s1)

/-- Lines 1744-1775, ssh_userauth_kbdint after its NULL-session check:
init when no scratch is live, send when one is. -/
def ssh_userauth_kbdint_body (env : DriverEnv) (user : Option String)
    (submethods : Option String) (s : Session) : AuthResult × Session :=
  match s.kbdint with
  | none => ssh_userauth_kbdint_init env user submethods s
  | some k => ssh_userauth_kbdint_send env k s

/-- Outcome of ssh_userauth_kbdint_setanswer on a live session: the
value 0 with the updated scratch, the value -1 (err), or a store past
the end of the answers array - undefined behavior in the C source,
recorded as its own outcome. -/
inductive SetAnswerResult where
  | ok (k : Kbdint)
  | err
  | oobWrite
deriving DecidableEq

/-- Lines 1924-1955, ssh_userauth_kbdint_setanswer on a non-NULL
session: a NULL answer, no live scratch, or an index with
i > kbdint->nprompts (line 1929 - strictly greater, so i = nprompts
passes) returns -1; the answers array is allocated to nprompts NULL
slots on first use (1934-1941); the old slot value is burned and freed
(1943-1946) and a copy of the answer stored.  A passing index equal to
nprompts falls outside the allocated array: oobWrite. -/
def ssh_userauth_kbdint_setanswer (i : Nat) (answer : Option String) (s : Session) :
    SetAnswerResult :=
  match s.kbdint, answer with
  | none, _ => .err
  | some _, none => .err
  | some k, some ans =>
    if i > k.nprompts then .err
    else
      let answers := (k.answers).getD (List.replicate k.nprompts none)
      if i < answers.length then
        .ok { k with answers := some (answers.set i (some ans)) }
      else
        .oobWrite

/-- Outcome of ssh_userauth_kbdint_getprompt on a live session: a prompt
with its echo flag, NULL, or a read past the end of the prompt and echo
arrays - undefined behavior in the C source, recorded as its own
outcome. -/
inductive GetPromptResult where
  | ok (prompt : String) (echo : Bool)
  | null
  | oobRead
deriving DecidableEq

/-- Lines 1854-1872, ssh_userauth_kbdint_getprompt on a non-NULL
session: no live scratch or i > kbdint->nprompts (line 1862 - strictly
greater, so i = nprompts passes) returns NULL; otherwise echo[i] is
written and prompts[i] returned.  A passing index equal to nprompts
falls outside both arrays: oobRead. -/
def ssh_userauth_kbdint_getprompt (i : Nat) (s : Session) : GetPromptResult :=
  match s.kbdint with
  | none => .null
  | some k =>
    if i > k.nprompts then .null
    else
      match k.echo.get? i, k.prompts.get? i with
      | some e, some p => .ok p e
      | _, _ => .oobRead

/-- Agent as the drivers see it: whether agent_is_running, and per agent
identity the results of the two inner driver calls (line 948, the
ssh_userauth_try_publickey offer, and line 962, the
ssh_userauth_agent_publickey signing call), which the server determines
and the embedding therefore takes from the environment. -/
structure AgentEnv where
  running : Bool
  identities : List (AuthResult × AuthResult)
deriving DecidableEq

/-- Lines 943-977, the identity loop of ssh_userauth_agent: an ERROR
from the offer aborts (949-952), any other non-SUCCESS skips to the next
identity (953-958); an ERROR from the signing call aborts (965-966), any
other non-SUCCESS skips (967-972); SUCCESS returns.  An exhausted loop
falls through to line 977 and returns SSH_AUTH_ERROR. -/
def ssh_userauth_agent_loop : List (AuthResult × AuthResult) → AuthResult
  | [] => .ERROR
  | (offer, sign) :: rest =>
    if offer = AuthResult.ERROR then .ERROR
    else if offer ≠ AuthResult.SUCCESS then ssh_userauth_agent_loop rest
    else if sign = AuthResult.ERROR then .ERROR
    else if sign ≠ AuthResult.SUCCESS then ssh_userauth_agent_loop rest
    else .SUCCESS

/-- Lines 928-978, ssh_userauth_agent after its NULL-session check: a
non-running agent is DENIED (939-941), otherwise the identity loop
runs. -/
def ssh_userauth_agent_body (a : AgentEnv) : AuthResult :=
  if a.running = false then .DENIED
  else ssh_userauth_agent_loop a.identities

/-- One identity file of the auto driver's list, with how each
collaborator call on it comes out: the import of p + ".pub" (line 1051),
the private-key import on its EOF path (1060), the derivation and
best-effort write of the public half (1081, 1087), the offer (1096), the
second private-key import when only the public file existed (1117), and
the signing driver call (1140). -/
structure IdentityEnv where
  pub_import : PkiRc
  priv_import : PkiRc
  export_pubkey : Bool
  write_pubkey : Bool
  offer_rc : AuthResult
  priv_import2 : PkiRc
  sign_rc : AuthResult
deriving DecidableEq

/-- What one turn of the auto driver's identity loop does: return from
the whole function, or continue with the next identity file. -/
inductive StepOutcome where
  | finished (rc : AuthResult)
  | next
deriving DecidableEq

/-- Lines 1140-1151: the publickey signing call of the auto loop - an
ERROR aborts, SUCCESS returns, anything else continues. -/
def auto_sign_step (e : IdentityEnv) : StepOutcome :=
  match e.sign_rc with
  | .ERROR => .finished .ERROR
  | .SUCCESS => .finished .SUCCESS
  | _ => .next

/-- Lines 1096-1151: offer the public key - ERROR aborts (1097-1104),
non-SUCCESS continues (1105-1113); on acceptance load the private key if
only the public file had been read (1116-1138: an SSH_ERROR or SSH_EOF
from that import continues), then sign. -/
def auto_offer_step (e : IdentityEnv) (havePriv : Bool) : StepOutcome :=
  match e.offer_rc with
  | .ERROR => .finished .ERROR
  | .SUCCESS =>
    if havePriv then auto_sign_step e
    else
      match e.priv_import2 with
      | .ERR => .next
      | .EOF => .next
      | .OK => auto_sign_step e
  | _ => .next

/-- Lines 1051-1156, one turn of the auto loop.  An SSH_ERROR importing
p + ".pub" sets a fatal error and returns SSH_AUTH_ERROR (1052-1057).
On SSH_EOF the private key is imported: SSH_ERROR continues (1065-1071,
where the return after the continue is dead code), SSH_EOF continues
(1072-1079); then the public half is derived - failure returns
SSH_AUTH_ERROR (1081-1085) - and written out, a failed write being only
logged (1087-1093).  Then offer and sign. -/
def auto_identity_step (e : IdentityEnv) : StepOutcome :=
  match e.pub_import with
  | .ERR => .finished .ERROR
  | .EOF =>
    match e.priv_import with
    | .ERR => .next
    | .EOF => .next
    | .OK =>
      if e.export_pubkey = false then .finished .ERROR
      else auto_offer_step e true
  | .OK => auto_offer_step e false

/-- Lines 1036-1162, the identity-file loop of
ssh_userauth_publickey_auto over the session's identity list (each path
paired with its environment).  The second component collects the paths
the loop actually took a turn on.  An exhausted list returns
SSH_AUTH_DENIED (1158-1162). -/
def ssh_userauth_publickey_auto_files :
    List (String × IdentityEnv) → AuthResult × List String
  | [] => (.DENIED, [])
  | (p, e) :: rest =>
    match auto_identity_step e with
    | .finished rc => (rc, [p])
    | .next =>
      let r := ssh_userauth_publickey_auto_files rest
      (r.1, p :: r.2)

/-- Lines 1010-1163, ssh_userauth_publickey_auto after its NULL-session
check: first the agent (1030-1033) - its ERROR or SUCCESS is returned at
once, before any identity file is touched - then the identity-file
loop. -/
def ssh_userauth_publickey_auto_body (a : AgentEnv)
    (ids : List (String × IdentityEnv)) : AuthResult × List String :=
  let rc := ssh_userauth_agent_body a
  if rc = AuthResult.ERROR ∨ rc = AuthResult.SUCCESS then (rc, [])
  else ssh_userauth_publickey_auto_files ids

/-- Outcome of a public entry point on an optional session: nullDeref
when the C function reads a field of a NULL session (undefined
behavior), or a normal return with the session it leaves behind (none
when there was no session to mutate). -/
inductive EntryResult where
  | nullDeref
  | returns (rc : AuthResult) (after : Option Session)
deriving DecidableEq

/-- ssh_userauth_none has no NULL-session check: its first statement at
line 346 reads session->pending_call_state, so a NULL session is
dereferenced. -/
def ssh_userauth_none (env : DriverEnv) (username : Option String)
    (s : Option Session) : EntryResult :=
  match s with
  | none => .nullDeref
  | some ss =>
    let r := ssh_userauth_none_body env username ss
    .returns r.1 (some r.2)

/-- Lines 465-467: ssh_userauth_try_publickey returns SSH_AUTH_ERROR on
a NULL session before touching anything. -/
def ssh_userauth_try_publickey (env : DriverEnv) (username : Option String)
    (pubkey : Option SshKey) (s : Option Session) : EntryResult :=
  match s with
  | none => .returns .ERROR none
  | some ss =>
    let r := ssh_userauth_try_publickey_body env username pubkey ss
    .returns r.1 (some r.2)

/-- Lines 627-629: ssh_userauth_publickey returns SSH_AUTH_ERROR on a
NULL session. -/
def ssh_userauth_publickey (env : DriverEnv) (username : Option String)
    (privkey : Option SshKey) (s : Option Session) : EntryResult :=
  match s with
  | none => .returns .ERROR none
  | some ss =>
    let r := ssh_userauth_publickey_body env username privkey ss
    .returns r.1 (some r.2)

/-- ssh_userauth_password has no NULL-session check: its first statement
at line 1208 reads session->pending_call_state, so a NULL session is
dereferenced. -/
def ssh_userauth_password (env : DriverEnv) (username : Option String)
    (password : String) (s : Option Session) : EntryResult :=
  match s with
  | none => .nullDeref
  | some ss =>
    let r := ssh_userauth_password_body env username password ss
    .returns r.1 (some r.2)

/-- Lines 935-937: ssh_userauth_agent returns SSH_AUTH_ERROR on a NULL
session. -/
def ssh_userauth_agent (a : AgentEnv) (s : Option Session) : EntryResult :=
  match s with
  | none => .returns .ERROR none
  | some ss => .returns (ssh_userauth_agent_body a) (some ss)

/-- Lines 1019-1021: ssh_userauth_publickey_auto returns SSH_AUTH_ERROR
on a NULL session. -/
def ssh_userauth_publickey_auto (a : AgentEnv) (ids : List (String × IdentityEnv))
    (s : Option Session) : EntryResult :=
  match s with
  | none => .returns .ERROR none
  | some ss => .returns (ssh_userauth_publickey_auto_body a ids).1 (some ss)

/-- Lines 1748-1750: ssh_userauth_kbdint returns SSH_AUTH_ERROR on a
NULL session. -/
def ssh_userauth_kbdint (env : DriverEnv) (user : Option String)
    (submethods : Option String) (s : Option Session) : EntryResult :=
  match s with
  | none => .returns .ERROR none
  | some ss =>
    let r := ssh_userauth_kbdint_body env user submethods ss
    .returns r.1 (some r.2)

/-- A concrete live session used by the closed evaluations below: fresh
after key exchange, nothing pending, nothing buffered. -/
def baseSession : Session :=
  { username := "alice", auth_state := AuthState.NONE,
    pending_call_state := PendingCall.NONE, auth_methods := 0,
    session_state := SessionState.AUTHENTICATING, current_crypto := none,
    kbdint := none, banner := none, fatal_error := false,
    out_buffer := [], wire := [], burned := [] }

/-- A concrete two-prompt kbdint scratch, as stored by the INFO_REQUEST
handler. -/
def kbd2 : Kbdint :=
  { name := "PAM", instruction := "Please authenticate", nprompts := 2,
    prompts := ["Password:", "OTP:"], echo := [false, true],
    nanswers := 2, answers := none }

/-- The base session with the two-prompt scratch live. -/
def sessionKbd2 : Session := { baseSession with kbdint := some kbd2 }

/-- A concrete public key. -/
def pubkeyK : SshKey :=
  { key_type := "ssh-rsa", is_public := true, is_private := false,
    blob := "blobK", sig := "sigK", agent_sig := "asigK" }

/-- Environment of a call whose response is still outstanding: everything
succeeds but no terminal packet has arrived, so auth_state stays NONE
and the driver returns AUTH_AGAIN. -/
def envAgain : DriverEnv :=
  { service_rc := ServiceRc.OK, alloc_ok := true, send_ok := true,
    handle_ok := true, response_state := AuthState.NONE }

/-- Environment of a call answered by USERAUTH_SUCCESS. -/
def envSuccess : DriverEnv :=
  { service_rc := ServiceRc.OK, alloc_ok := true, send_ok := true,
    handle_ok := true, response_state := AuthState.SUCCESS }

/-- Environment of a call whose packet_send fails with SSH_ERROR. -/
def envSendFail : DriverEnv :=
  { service_rc := ServiceRc.OK, alloc_ok := true, send_ok := false,
    handle_ok := true, response_state := AuthState.NONE }

/-- C1 - the claim reads: setanswer with i equal to nprompts fails and
getprompt with i equal to nprompts returns NULL, every index at or above
nprompts being rejected.  The code at lines 1929 and 1862 bounds-checks
with strictly-greater, so on the live two-prompt scratch the index 2
passes both checks and touches one slot past the arrays (the spec's own
design note flags this off-by-one as a bug of the source); index 1
succeeds and index 3 is rejected, as the claim says. -/
theorem kbdint_index_off_by_one_eval :
    ssh_userauth_kbdint_setanswer 2 (some "x") sessionKbd2 = SetAnswerResult.oobWrite ∧
    ssh_userauth_kbdint_setanswer 2 (some "x") sessionKbd2 ≠ SetAnswerResult.err ∧
    ssh_userauth_kbdint_setanswer 1 (some "x") sessionKbd2 =
      SetAnswerResult.ok { kbd2 with answers := some [none, some "x"] } ∧
    ssh_userauth_kbdint_setanswer 3 (some "x") sessionKbd2 = SetAnswerResult.err ∧
    ssh_userauth_kbdint_getprompt 2 sessionKbd2 = GetPromptResult.oobRead ∧
    ssh_userauth_kbdint_getprompt 1 sessionKbd2 = GetPromptResult.ok "OTP:" true ∧
    ssh_userauth_kbdint_getprompt 3 sessionKbd2 = GetPromptResult.null := by
  decide

/-- C2 - the claim reads: every driver's pending-call marker is distinct,
and in particular invoking ssh_userauth_try_publickey while a password
call is pending raises a fatal error and sends nothing.  In the code the
password driver stores SSH_PENDING_CALL_AUTH_OFFER_PUBKEY (line 1292,
the publickey-offer marker - the copy-paste the spec's design notes call
a likely bug), so after a password call returns AUTH_AGAIN a
try_publickey call matches its own resume case, raises no error, sends
nothing new but resumes the password call and returns its result. -/
theorem password_offer_marker_collision_eval :
    (ssh_userauth_password_body envAgain none "hunter2" baseSession).1 =
      AuthResult.AGAIN ∧
    (ssh_userauth_password_body envAgain none "hunter2" baseSession).2.pending_call_state =
      PendingCall.AUTH_OFFER_PUBKEY ∧
    (ssh_userauth_try_publickey_body envSuccess none (some pubkeyK)
        (ssh_userauth_password_body envAgain none "hunter2" baseSession).2).1 =
      AuthResult.SUCCESS ∧
    (ssh_userauth_try_publickey_body envSuccess none (some pubkeyK)
        (ssh_userauth_password_body envAgain none "hunter2" baseSession).2).2.fatal_error =
      false ∧
    (ssh_userauth_try_publickey_body envSuccess none (some pubkeyK)
        (ssh_userauth_password_body envAgain none "hunter2" baseSession).2).2.wire =
      (ssh_userauth_password_body envAgain none "hunter2" baseSession).2.wire := by
  decide

/-- The pending label returns whatever the response mapping gives. -/
theorem finish_response_fst (env : DriverEnv) (s : Session) :
    (finish_response env s).1 = response_rc env := by
  unfold finish_response ssh_userauth_get_response
  by_cases h : response_rc env = AuthResult.AGAIN <;> simp [h]

/-- The pending label clears the marker whenever it does not return
AUTH_AGAIN. -/
theorem finish_response_pending (env : DriverEnv) (s : Session)
    (h : (finish_response env s).1 ≠ AuthResult.AGAIN) :
    (finish_response env s).2.pending_call_state = PendingCall.NONE := by
  unfold finish_response ssh_userauth_get_response at h ⊢
  by_cases hr : response_rc env = AuthResult.AGAIN
  · simp [hr] at h
  · simp [hr]

/-- Marker discipline of ssh_userauth_none: entered with no pending call
or with its own marker, every non-AGAIN return leaves the marker clear,
except the AUTH_ERROR return from a failed packet_send which leaves the
freshly set AUTH_NONE marker. -/
theorem none_body_pending (env : DriverEnv) (u : Option String) (s : Session)
    (hp : s.pending_call_state = PendingCall.NONE ∨
          s.pending_call_state = PendingCall.AUTH_NONE)
    (hr : (ssh_userauth_none_body env u s).1 ≠ AuthResult.AGAIN) :
    (ssh_userauth_none_body env u s).2.pending_call_state = PendingCall.NONE ∨
      ((ssh_userauth_none_body env u s).1 = AuthResult.ERROR ∧ env.send_ok = false ∧
       (ssh_userauth_none_body env u s).2.pending_call_state = PendingCall.AUTH_NONE) := by
  rcases hp with hp | hp <;>
    cases hsvc : env.service_rc <;>
    cases halloc : env.alloc_ok <;>
    cases hsend : env.send_ok <;>
    simp only [ssh_userauth_none_body, hp, hsvc, halloc, hsend, oom_fail, packet_send_ok,
      Bool.true_eq_false, Bool.false_eq_true, if_true, if_false, ite_true, ite_false,
      eq_self_iff_true, not_true, not_false_iff] at hr ⊢ <;>
    first
      | exact absurd rfl hr
      | exact Or.inl rfl
      | exact Or.inl True.intro
      | exact Or.inl (finish_response_pending _ _ hr)
      | exact Or.inr (by simp)

/-- Marker discipline of ssh_userauth_try_publickey with a valid public
key: as for ssh_userauth_none, with marker AUTH_OFFER_PUBKEY. -/
theorem try_publickey_body_pending (env : DriverEnv) (u : Option String) (key : SshKey)
    (s : Session) (hkey : key.is_public = true)
    (hp : s.pending_call_state = PendingCall.NONE ∨
          s.pending_call_state = PendingCall.AUTH_OFFER_PUBKEY)
    (hr : (ssh_userauth_try_publickey_body env u (some key) s).1 ≠ AuthResult.AGAIN) :
    (ssh_userauth_try_publickey_body env u (some key) s).2.pending_call_state =
        PendingCall.NONE ∨
      ((ssh_userauth_try_publickey_body env u (some key) s).1 = AuthResult.ERROR ∧
       env.send_ok = false ∧
       (ssh_userauth_try_publickey_body env u (some key) s).2.pending_call_state =
         PendingCall.AUTH_OFFER_PUBKEY) := by
  rcases hp with hp | hp <;>
    cases hsvc : env.service_rc <;>
    cases halloc : env.alloc_ok <;>
    cases hsend : env.send_ok <;>
    simp only [ssh_userauth_try_publickey_body, hkey, hp, hsvc, halloc, hsend, oom_fail,
      packet_send_ok, Bool.true_eq_false, Bool.false_eq_true, if_true, if_false, ite_true,
      ite_false, eq_self_iff_true, not_true, not_false_iff] at hr ⊢ <;>
    first
      | exact absurd rfl hr
      | exact Or.inl rfl
      | exact Or.inl True.intro
      | exact Or.inl (finish_response_pending _ _ hr)
      | exact Or.inr (by simp)

/-- Marker discipline of ssh_userauth_publickey with a valid private
key: marker AUTH_PUBKEY. -/
theorem publickey_body_pending (env : DriverEnv) (u : Option String) (key : SshKey)
    (s : Session) (hkey : key.is_private = true)
    (hp : s.pending_call_state = PendingCall.NONE ∨
          s.pending_call_state = PendingCall.AUTH_PUBKEY)
    (hr : (ssh_userauth_publickey_body env u (some key) s).1 ≠ AuthResult.AGAIN) :
    (ssh_userauth_publickey_body env u (some key) s).2.pending_call_state =
        PendingCall.NONE ∨
      ((ssh_userauth_publickey_body env u (some key) s).1 = AuthResult.ERROR ∧
       env.send_ok = false ∧
       (ssh_userauth_publickey_body env u (some key) s).2.pending_call_state =
         PendingCall.AUTH_PUBKEY) := by
  rcases hp with hp | hp <;>
    cases hsvc : env.service_rc <;>
    cases halloc : env.alloc_ok <;>
    cases hsend : env.send_ok <;>
    simp only [ssh_userauth_publickey_body, hkey, hp, hsvc, halloc, hsend, oom_fail,
      packet_send_ok, Bool.true_eq_false, Bool.false_eq_true, if_true, if_false, ite_true,
      ite_false, eq_self_iff_true, not_true, not_false_iff] at hr ⊢ <;>
    first
      | exact absurd rfl hr
      | exact Or.inl rfl
      | exact Or.inl True.intro
      | exact Or.inl (finish_response_pending _ _ hr)
      | exact Or.inr (by simp)

/-- Marker discipline of the static agent signing driver: marker
AUTH_AGENT. -/
theorem agent_publickey_body_pending (env : DriverEnv) (u : Option String) (key : SshKey)
    (s : Session)
    (hp : s.pending_call_state = PendingCall.NONE ∨
          s.pending_call_state = PendingCall.AUTH_AGENT)
    (hr : (ssh_userauth_agent_publickey_body env u key s).1 ≠ AuthResult.AGAIN) :
    (ssh_userauth_agent_publickey_body env u key s).2.pending_call_state =
        PendingCall.NONE ∨
      ((ssh_userauth_agent_publickey_body env u key s).1 = AuthResult.ERROR ∧
       env.send_ok = false ∧
       (ssh_userauth_agent_publickey_body env u key s).2.pending_call_state =
         PendingCall.AUTH_AGENT) := by
  rcases hp with hp | hp <;>
    cases hsvc : env.service_rc <;>
    cases halloc : env.alloc_ok <;>
    cases hsend : env.send_ok <;>
    simp only [ssh_userauth_agent_publickey_body, hp, hsvc, halloc, hsend, oom_fail,
      packet_send_ok, Bool.true_eq_false, Bool.false_eq_true, if_true, if_false, ite_true,
      ite_false, eq_self_iff_true, not_true, not_false_iff] at hr ⊢ <;>
    first
      | exact absurd rfl hr
      | exact Or.inl rfl
      | exact Or.inl True.intro
      | exact Or.inl (finish_response_pending _ _ hr)
      | exact Or.inr (by simp)

/-- Marker discipline of ssh_userauth_password, whose marker is the
shared AUTH_OFFER_PUBKEY value stored at line 1292. -/
theorem password_body_pending (env : DriverEnv) (u : Option String) (pw : String)
    (s : Session)
    (hp : s.pending_call_state = PendingCall.NONE ∨
          s.pending_call_state = PendingCall.AUTH_OFFER_PUBKEY)
    (hr : (ssh_userauth_password_body env u pw s).1 ≠ AuthResult.AGAIN) :
    (ssh_userauth_password_body env u pw s).2.pending_call_state = PendingCall.NONE ∨
      ((ssh_userauth_password_body env u pw s).1 = AuthResult.ERROR ∧
       env.send_ok = false ∧
       (ssh_userauth_password_body env u pw s).2.pending_call_state =
         PendingCall.AUTH_OFFER_PUBKEY) := by
  rcases hp with hp | hp <;>
    cases hsvc : env.service_rc <;>
    cases halloc : env.alloc_ok <;>
    cases hsend : env.send_ok <;>
    simp only [ssh_userauth_password_body, hp, hsvc, halloc, hsend, oom_fail,
      packet_send_ok, Bool.true_eq_false, Bool.false_eq_true, if_true, if_false, ite_true,
      ite_false, eq_self_iff_true, not_true, not_false_iff] at hr ⊢ <;>
    first
      | exact absurd rfl hr
      | exact Or.inl rfl
      | exact Or.inl True.intro
      | exact Or.inl (finish_response_pending _ _ hr)
      | exact Or.inr (by simp)

/-- The keyboard-interactive drivers never touch the pending marker
(neither ssh_userauth_kbdint_init nor ssh_userauth_kbdint_send manages
pending_call_state). -/
theorem kbdint_body_pending_frame (env : DriverEnv) (u sub : Option String) (s : Session) :
    (ssh_userauth_kbdint_body env u sub s).2.pending_call_state = s.pending_call_state := by
  cases hk : s.kbdint <;>
    cases hsvc : env.service_rc <;>
    cases halloc : env.alloc_ok <;>
    cases hsend : env.send_ok <;>
    simp [ssh_userauth_kbdint_body, ssh_userauth_kbdint_init, ssh_userauth_kbdint_send,
      ssh_userauth_get_response, oom_fail, packet_send_ok, hk, hsvc, halloc, hsend]

/-- C3 counterexample - the claim includes AUTH_ERROR returns from a
failed packet send among the returns that leave pending_call_state at
NONE.  On the fresh session, a none call whose packet_send fails returns
AUTH_ERROR with the AUTH_NONE marker still set (lines 410-414 return
before the clearing at 416-420), and no fatal error is recorded, so this
is not the re-entrancy-detection error the claim exempts. -/
theorem send_failure_keeps_marker_eval :
    (ssh_userauth_none_body envSendFail none baseSession).1 = AuthResult.ERROR ∧
    (ssh_userauth_none_body envSendFail none baseSession).2.pending_call_state =
      PendingCall.AUTH_NONE ∧
    (ssh_userauth_none_body envSendFail none baseSession).2.fatal_error = false := by
  decide

/-- C3 (amended): for every driver call entered under the documented
discipline (no pending call, or resuming the driver's own marker; valid
key arguments) and every terminal return other than AUTH_AGAIN, the
pending marker is NONE on exit, except that the AUTH_ERROR return taken
when packet_send fails leaves the driver's freshly set marker in place;
the kbdint drivers never touch the marker, so it stays exactly as it
was.  The re-entrancy-detection error is outside the discipline
hypothesis, as in the claim. -/
theorem pending_marker_on_terminal_return :
    (∀ (env : DriverEnv) (u : Option String) (s : Session),
      s.pending_call_state = PendingCall.NONE ∨
        s.pending_call_state = PendingCall.AUTH_NONE →
      (ssh_userauth_none_body env u s).1 ≠ AuthResult.AGAIN →
      (ssh_userauth_none_body env u s).2.pending_call_state = PendingCall.NONE ∨
        ((ssh_userauth_none_body env u s).1 = AuthResult.ERROR ∧ env.send_ok = false ∧
         (ssh_userauth_none_body env u s).2.pending_call_state = PendingCall.AUTH_NONE)) ∧
    (∀ (env : DriverEnv) (u : Option String) (key : SshKey) (s : Session),
      key.is_public = true →
      s.pending_call_state = PendingCall.NONE ∨
        s.pending_call_state = PendingCall.AUTH_OFFER_PUBKEY →
      (ssh_userauth_try_publickey_body env u (some key) s).1 ≠ AuthResult.AGAIN →
      (ssh_userauth_try_publickey_body env u (some key) s).2.pending_call_state =
          PendingCall.NONE ∨
        ((ssh_userauth_try_publickey_body env u (some key) s).1 = AuthResult.ERROR ∧
         env.send_ok = false ∧
         (ssh_userauth_try_publickey_body env u (some key) s).2.pending_call_state =
           PendingCall.AUTH_OFFER_PUBKEY)) ∧
    (∀ (env : DriverEnv) (u : Option String) (key : SshKey) (s : Session),
      key.is_private = true →
      s.pending_call_state = PendingCall.NONE ∨
        s.pending_call_state = PendingCall.AUTH_PUBKEY →
      (ssh_userauth_publickey_body env u (some key) s).1 ≠ AuthResult.AGAIN →
      (ssh_userauth_publickey_body env u (some key) s).2.pending_call_state =
          PendingCall.NONE ∨
        ((ssh_userauth_publickey_body env u (some key) s).1 = AuthResult.ERROR ∧
         env.send_ok = false ∧
         (ssh_userauth_publickey_body env u (some key) s).2.pending_call_state =
           PendingCall.AUTH_PUBKEY)) ∧
    (∀ (env : DriverEnv) (u : Option String) (key : SshKey) (s : Session),
      s.pending_call_state = PendingCall.NONE ∨
        s.pending_call_state = PendingCall.AUTH_AGENT →
      (ssh_userauth_agent_publickey_body env u key s).1 ≠ AuthResult.AGAIN →
      (ssh_userauth_agent_publickey_body env u key s).2.pending_call_state =
          PendingCall.NONE ∨
        ((ssh_userauth_agent_publickey_body env u key s).1 = AuthResult.ERROR ∧
         env.send_ok = false ∧
         (ssh_userauth_agent_publickey_body env u key s).2.pending_call_state =
           PendingCall.AUTH_AGENT)) ∧
    (∀ (env : DriverEnv) (u : Option String) (pw : String) (s : Session),
      s.pending_call_state = PendingCall.NONE ∨
        s.pending_call_state = PendingCall.AUTH_OFFER_PUBKEY →
      (ssh_userauth_password_body env u pw s).1 ≠ AuthResult.AGAIN →
      (ssh_userauth_password_body env u pw s).2.pending_call_state = PendingCall.NONE ∨
        ((ssh_userauth_password_body env u pw s).1 = AuthResult.ERROR ∧
         env.send_ok = false ∧
         (ssh_userauth_password_body env u pw s).2.pending_call_state =
           PendingCall.AUTH_OFFER_PUBKEY)) ∧
    (∀ (env : DriverEnv) (u sub : Option String) (s : Session),
      (ssh_userauth_kbdint_body env u sub s).2.pending_call_state =
        s.pending_call_state) :=
  ⟨none_body_pending,
   fun env u key s hkey => try_publickey_body_pending env u key s hkey,
   fun env u key s hkey => publickey_body_pending env u key s hkey,
   agent_publickey_body_pending,
   password_body_pending,
   kbdint_body_pending_frame⟩

/-- Witness for the amended C3: the none driver answered by
USERAUTH_SUCCESS, the password driver with a failed send, and a kbdint
call, each at concrete inputs. -/
theorem pending_marker_on_terminal_return_witness :
    ((ssh_userauth_none_body envSuccess none baseSession).2.pending_call_state =
        PendingCall.NONE ∨
      ((ssh_userauth_none_body envSuccess none baseSession).1 = AuthResult.ERROR ∧
       envSuccess.send_ok = false ∧
       (ssh_userauth_none_body envSuccess none baseSession).2.pending_call_state =
         PendingCall.AUTH_NONE)) ∧
    ((ssh_userauth_password_body envSendFail none "pw" baseSession).2.pending_call_state =
        PendingCall.NONE ∨
      ((ssh_userauth_password_body envSendFail none "pw" baseSession).1 =
         AuthResult.ERROR ∧
       envSendFail.send_ok = false ∧
       (ssh_userauth_password_body envSendFail none "pw" baseSession).2.pending_call_state =
         PendingCall.AUTH_OFFER_PUBKEY)) ∧
    (ssh_userauth_kbdint_body envSuccess none none baseSession).2.pending_call_state =
      baseSession.pending_call_state :=
  ⟨pending_marker_on_terminal_return.1 envSuccess none baseSession (Or.inl rfl)
     (by decide),
   pending_marker_on_terminal_return.2.2.2.2.1 envSendFail none "pw" baseSession
     (Or.inl rfl) (by decide),
   pending_marker_on_terminal_return.2.2.2.2.2 envSuccess none none baseSession⟩

/-- Splitting a character list on commas, for the claim-side reading of
the server's name-list. -/
def split_comma : List Char → List (List Char)
  | [] => [[]]
  | c :: t =>
    if c = ',' then [] :: split_comma t
    else
      match split_comma t with
      | h :: r => (c :: h) :: r
      | [] => [[c]]

/-- Stated from the claim's words, for comparison with the handler: the
union of the recognized flags for the tokens that occur as elements of
the server's comma-separated method list. -/
def claim_token_methods (m : String) : Nat :=
  let toks := split_comma m.toList
  (if toks.contains "password".toList then SSH_AUTH_METHOD_PASSWORD else 0) |||
  (if toks.contains "keyboard-interactive".toList then SSH_AUTH_METHOD_INTERACTIVE else 0) |||
  (if toks.contains "publickey".toList then SSH_AUTH_METHOD_PUBLICKEY else 0) |||
  (if toks.contains "hostbased".toList then SSH_AUTH_METHOD_HOSTBASED else 0)

/-- Stated from the amended claim: the union of the recognized flags for
the tokens that occur as substrings of the server's method list, the
relation the strstr calls at lines 207-218 actually decide. -/
def substr_methods (m : String) : Nat :=
  (if strstrS m "password" then SSH_AUTH_METHOD_PASSWORD else 0) |||
  (if strstrS m "keyboard-interactive" then SSH_AUTH_METHOD_INTERACTIVE else 0) |||
  (if strstrS m "publickey" then SSH_AUTH_METHOD_PUBLICKEY else 0) |||
  (if strstrS m "hostbased" then SSH_AUTH_METHOD_HOSTBASED else 0)

/-- The sequential OR-ing of the handler equals OR-ing the substring
union into the base value. -/
theorem apply_methods_flags_eq (base : Nat) (m : String) :
    apply_methods_flags base m = base ||| substr_methods m := by
  unfold apply_methods_flags substr_methods
  by_cases h1 : strstrS m "password" <;>
    by_cases h2 : strstrS m "keyboard-interactive" <;>
    by_cases h3 : strstrS m "publickey" <;>
    by_cases h4 : strstrS m "hostbased" <;>
    simp [h1, h2, h3, h4, Nat.lor_assoc, Nat.or_zero, Nat.zero_or]

/-- C4 counterexample - the claim reads: no recognized flag is set
unless its token occurs in the server's comma-separated list.  The
handler tests occurrence with strstr, so the one-element list
"xpassword", whose only token is not "password", still sets the
PASSWORD flag. -/
theorem failure_methods_not_token_exact_eval :
    (ssh_packet_userauth_failure (some ("xpassword", false)) baseSession).auth_methods ≠
      claim_token_methods "xpassword" ∧
    (ssh_packet_userauth_failure (some ("xpassword", false)) baseSession).auth_methods =
      SSH_AUTH_METHOD_PASSWORD ∧
    claim_token_methods "xpassword" = 0 := by
  decide

/-- C4 (amended): on a well-formed USERAUTH_FAILURE with partial = 0 the
handler sets auth_state to FAILED and rebuilds auth_methods from
scratch as exactly the union of the recognized flags for the tokens
that occur as substrings of the server's list (so independent of the
previous value); with partial = 1 it sets PARTIAL and ORs that union
into the existing auth_methods without clearing. -/
theorem failure_methods_substring_rebuild :
    (∀ (m : String) (s : Session),
      (ssh_packet_userauth_failure (some (m, false)) s).auth_methods = substr_methods m ∧
      (ssh_packet_userauth_failure (some (m, false)) s).auth_state = AuthState.FAILED) ∧
    (∀ (m : String) (s : Session),
      (ssh_packet_userauth_failure (some (m, true)) s).auth_methods =
        s.auth_methods ||| substr_methods m ∧
      (ssh_packet_userauth_failure (some (m, true)) s).auth_state = AuthState.PARTIAL) := by
  constructor
  · intro m s
    constructor
    · simp [ssh_packet_userauth_failure, apply_methods_flags_eq, Nat.zero_or]
    · rfl
  · intro m s
    constructor
    · simp [ssh_packet_userauth_failure, apply_methods_flags_eq]
    · rfl

/-- The pending label never touches the negotiated crypto. -/
theorem finish_response_crypto (env : DriverEnv) (s : Session) :
    (finish_response env s).2.current_crypto = s.current_crypto := by
  unfold finish_response ssh_userauth_get_response
  by_cases h : response_rc env = AuthResult.AGAIN <;> simp [h]

/-- The banner handler never touches the negotiated crypto. -/
theorem banner_crypto (p : Option String) (s : Session) :
    (ssh_packet_userauth_banner p s).current_crypto = s.current_crypto := by
  cases p <;> rfl

/-- The failure handler never touches the negotiated crypto. -/
theorem failure_crypto (p : Option (String × Bool)) (s : Session) :
    (ssh_packet_userauth_failure p s).current_crypto = s.current_crypto := by
  rcases p with _ | ⟨m, pf⟩
  · rfl
  · cases pf <;> rfl

/-- The INFO_REQUEST parser never touches the negotiated crypto. -/
theorem info_request_crypto (pkt : InfoRequestPacket) (s : Session) :
    (ssh_packet_userauth_info_request pkt s).current_crypto = s.current_crypto := by
  rcases pkt with ⟨nm, ins, lg, np, ps⟩
  cases nm <;> cases ins <;> cases lg <;>
    simp only [ssh_packet_userauth_info_request] <;>
    first
      | rfl
      | (split
         · rfl
         · split
           · rfl
           · rfl)

/-- The message-60 dispatcher never touches the negotiated crypto. -/
theorem pk_ok_crypto (pkt : InfoRequestPacket) (s : Session) :
    (ssh_packet_userauth_pk_ok pkt s).current_crypto = s.current_crypto := by
  by_cases h : s.auth_state = AuthState.KBDINT_SENT <;>
    simp [ssh_packet_userauth_pk_ok, h, info_request_crypto]

/-- The none driver never touches the negotiated crypto. -/
theorem none_body_crypto (env : DriverEnv) (u : Option String) (s : Session) :
    (ssh_userauth_none_body env u s).2.current_crypto = s.current_crypto := by
  cases hp : s.pending_call_state <;>
    cases hsvc : env.service_rc <;>
    cases halloc : env.alloc_ok <;>
    cases hsend : env.send_ok <;>
    simp [ssh_userauth_none_body, hp, hsvc, halloc, hsend, oom_fail, packet_send_ok,
      finish_response_crypto]

/-- The publickey-offer driver never touches the negotiated crypto. -/
theorem try_publickey_body_crypto (env : DriverEnv) (u : Option String)
    (k : Option SshKey) (s : Session) :
    (ssh_userauth_try_publickey_body env u k s).2.current_crypto = s.current_crypto := by
  cases k with
  | none => rfl
  | some key =>
    cases hkp : key.is_public <;>
      cases hp : s.pending_call_state <;>
      cases hsvc : env.service_rc <;>
      cases halloc : env.alloc_ok <;>
      cases hsend : env.send_ok <;>
      simp [ssh_userauth_try_publickey_body, hkp, hp, hsvc, halloc, hsend, oom_fail,
        packet_send_ok, finish_response_crypto]

/-- The publickey signing driver never touches the negotiated crypto. -/
theorem publickey_body_crypto (env : DriverEnv) (u : Option String)
    (k : Option SshKey) (s : Session) :
    (ssh_userauth_publickey_body env u k s).2.current_crypto = s.current_crypto := by
  cases k with
  | none => rfl
  | some key =>
    cases hkp : key.is_private <;>
      cases hp : s.pending_call_state <;>
      cases hsvc : env.service_rc <;>
      cases halloc : env.alloc_ok <;>
      cases hsend : env.send_ok <;>
      simp [ssh_userauth_publickey_body, hkp, hp, hsvc, halloc, hsend, oom_fail,
        packet_send_ok, finish_response_crypto]

/-- The agent signing driver never touches the negotiated crypto. -/
theorem agent_publickey_body_crypto (env : DriverEnv) (u : Option String)
    (key : SshKey) (s : Session) :
    (ssh_userauth_agent_publickey_body env u key s).2.current_crypto = s.current_crypto := by
  cases hp : s.pending_call_state <;>
    cases hsvc : env.service_rc <;>
    cases halloc : env.alloc_ok <;>
    cases hsend : env.send_ok <;>
    simp [ssh_userauth_agent_publickey_body, hp, hsvc, halloc, hsend, oom_fail,
      packet_send_ok, finish_response_crypto]

/-- The password driver never touches the negotiated crypto. -/
theorem password_body_crypto (env : DriverEnv) (u : Option String) (pw : String)
    (s : Session) :
    (ssh_userauth_password_body env u pw s).2.current_crypto = s.current_crypto := by
  cases hp : s.pending_call_state <;>
    cases hsvc : env.service_rc <;>
    cases halloc : env.alloc_ok <;>
    cases hsend : env.send_ok <;>
    simp [ssh_userauth_password_body, hp, hsvc, halloc, hsend, oom_fail, packet_send_ok,
      finish_response_crypto]

/-- The keyboard-interactive entry never touches the negotiated
crypto. -/
theorem kbdint_body_crypto (env : DriverEnv) (u sub : Option String) (s : Session) :
    (ssh_userauth_kbdint_body env u sub s).2.current_crypto = s.current_crypto := by
  cases hk : s.kbdint <;>
    cases hsvc : env.service_rc <;>
    cases halloc : env.alloc_ok <;>
    cases hsend : env.send_ok <;>
    simp [ssh_userauth_kbdint_body, ssh_userauth_kbdint_init, ssh_userauth_kbdint_send,
      ssh_userauth_get_response, oom_fail, packet_send_ok, hk, hsvc, halloc, hsend]

/-- C5: on USERAUTH_SUCCESS the handler sets auth_state SUCCESS, marks
the session authenticated, and switches on compression exactly for the
directions whose negotiated crypto asked for delayed compression,
leaving the other direction's switch as it was; and no other operation
of this module changes the negotiated crypto, so this is the single
compression-activation point. -/
theorem userauth_success_single_compression_point :
    (∀ s : Session,
      (ssh_packet_userauth_success s).auth_state = AuthState.SUCCESS ∧
      (ssh_packet_userauth_success s).session_state = SessionState.AUTHENTICATED ∧
      (ssh_packet_userauth_success s).current_crypto = s.current_crypto.map (fun c =>
        { c with
          do_compress_out := if c.delayed_compress_out then true else c.do_compress_out,
          do_compress_in := if c.delayed_compress_in then true else c.do_compress_in })) ∧
    (∀ (p : Option String) (s : Session),
      (ssh_packet_userauth_banner p s).current_crypto = s.current_crypto) ∧
    (∀ (p : Option (String × Bool)) (s : Session),
      (ssh_packet_userauth_failure p s).current_crypto = s.current_crypto) ∧
    (∀ (pkt : InfoRequestPacket) (s : Session),
      (ssh_packet_userauth_pk_ok pkt s).current_crypto = s.current_crypto) ∧
    (∀ (pkt : InfoRequestPacket) (s : Session),
      (ssh_packet_userauth_info_request pkt s).current_crypto = s.current_crypto) ∧
    (∀ (env : DriverEnv) (u : Option String) (s : Session),
      (ssh_userauth_none_body env u s).2.current_crypto = s.current_crypto) ∧
    (∀ (env : DriverEnv) (u : Option String) (k : Option SshKey) (s : Session),
      (ssh_userauth_try_publickey_body env u k s).2.current_crypto = s.current_crypto) ∧
    (∀ (env : DriverEnv) (u : Option String) (k : Option SshKey) (s : Session),
      (ssh_userauth_publickey_body env u k s).2.current_crypto = s.current_crypto) ∧
    (∀ (env : DriverEnv) (u : Option String) (key : SshKey) (s : Session),
      (ssh_userauth_agent_publickey_body env u key s).2.current_crypto =
        s.current_crypto) ∧
    (∀ (env : DriverEnv) (u : Option String) (pw : String) (s : Session),
      (ssh_userauth_password_body env u pw s).2.current_crypto = s.current_crypto) ∧
    (∀ (env : DriverEnv) (u sub : Option String) (s : Session),
      (ssh_userauth_kbdint_body env u sub s).2.current_crypto = s.current_crypto) :=
  ⟨fun s => by
      refine ⟨?_, ?_, ?_⟩ <;> cases hc : s.current_crypto <;>
        simp [ssh_packet_userauth_success, hc],
   banner_crypto, failure_crypto, pk_ok_crypto, info_request_crypto, none_body_crypto,
   try_publickey_body_crypto, publickey_body_crypto, agent_publickey_body_crypto,
   password_body_crypto, kbdint_body_crypto⟩

/-- The INFO_RESPONSE payload the claim describes: message byte 61, a
num-responses count equal to nprompts, then exactly nprompts response
strings in index order, an unset slot going out as the empty string. -/
def kbdint_response_packet (k : Kbdint) : List WireField :=
  [WireField.u8 61, WireField.u32 k.nprompts] ++
    ((List.range k.nprompts).map (kbdint_answer_at k)).map WireField.str

/-- C6: with a live scratch the kbdint entry dispatches to the send
path, which appends exactly the INFO_RESPONSE payload above to the
outgoing buffer; the scratch is released (session->kbdint is none) both
when packet_send succeeds - the packet goes out on the wire - and when
it fails with AUTH_ERROR; and every answer the caller had stored is
among the strings burned before the free. -/
theorem kbdint_send_response_shape (env : DriverEnv) (u sub : Option String)
    (k : Kbdint) (s : Session) (hk : s.kbdint = some k) (halloc : env.alloc_ok = true) :
    ssh_userauth_kbdint_body env u sub s = ssh_userauth_kbdint_send env k s ∧
    (ssh_userauth_kbdint_send env k s).2.kbdint = none ∧
    (env.send_ok = true →
      (ssh_userauth_kbdint_send env k s).2.wire =
        s.wire ++ [s.out_buffer ++ kbdint_response_packet k]) ∧
    (env.send_ok = false →
      (ssh_userauth_kbdint_send env k s).1 = AuthResult.ERROR ∧
      (ssh_userauth_kbdint_send env k s).2.out_buffer =
        s.out_buffer ++ kbdint_response_packet k) ∧
    (∀ (ans : List (Option String)) (i : Nat) (a : String),
      k.answers = some ans → i < k.nanswers → ans.get? i = some (some a) →
      a ∈ (ssh_userauth_kbdint_send env k s).2.burned) := by
  refine ⟨by simp [ssh_userauth_kbdint_body, hk], ?_, ?_, ?_, ?_⟩
  · cases hsend : env.send_ok <;>
      simp [ssh_userauth_kbdint_send, halloc, hsend, packet_send_ok,
        ssh_userauth_get_response]
  · intro hsend
    simp [ssh_userauth_kbdint_send, halloc, hsend, packet_send_ok,
      ssh_userauth_get_response, kbdint_response_packet]
  · intro hsend
    simp [ssh_userauth_kbdint_send, halloc, hsend, kbdint_response_packet]
  · intro ans i a hans hi hget
    have htake : ((ans.take k.nanswers).get? i) = some (some a) := by
      rw [List.get?_take hi]; exact hget
    have hmem : a ∈ (ans.take k.nanswers).filterMap id :=
      List.mem_filterMap.mpr ⟨some a, List.get?_mem htake, rfl⟩
    cases hsend : env.send_ok <;>
      simp [ssh_userauth_kbdint_send, halloc, hsend, packet_send_ok,
        ssh_userauth_get_response, ssh_kbdint_free_burns, hans, List.mem_append, hmem]

/-- A two-prompt scratch with the first answer set and the second slot
unset. -/
def kbdW : Kbdint :=
  { name := "PAM", instruction := "", nprompts := 2,
    prompts := ["Password:", "OTP:"], echo := [false, true],
    nanswers := 2, answers := some [some "p", none] }

/-- The base session with kbdW live. -/
def sessionKbdW : Session := { baseSession with kbdint := some kbdW }

/-- Witness for C6 at the concrete scratch kbdW. -/
theorem kbdint_send_response_shape_witness :
    (ssh_userauth_kbdint_send envSuccess kbdW sessionKbdW).2.kbdint = none ∧
    (ssh_userauth_kbdint_send envSuccess kbdW sessionKbdW).2.wire =
      sessionKbdW.wire ++ [sessionKbdW.out_buffer ++ kbdint_response_packet kbdW] ∧
    "p" ∈ (ssh_userauth_kbdint_send envSuccess kbdW sessionKbdW).2.burned :=
  ⟨(kbdint_send_response_shape envSuccess none none kbdW sessionKbdW rfl rfl).2.1,
   (kbdint_send_response_shape envSuccess none none kbdW sessionKbdW rfl rfl).2.2.1 rfl,
   (kbdint_send_response_shape envSuccess none none kbdW sessionKbdW rfl rfl).2.2.2.2
     [some "p", none] 0 "p" rfl (by decide) rfl⟩

/-- C7: on a USERAUTH_INFO_REQUEST whose header strings parse, a prompt
count of 0 or above KBDINT_MAX_PROMPT records a fatal session error,
frees the scratch leaving session->kbdint NULL, and leaves auth_state
untouched (so never INFO from this packet); a count within bounds whose
prompts are all present stores exactly the nprompts prompts and echo
flags, sets nanswers to nprompts, and sets auth_state to INFO. -/
theorem info_request_prompt_validation (pkt : InfoRequestPacket) (s : Session)
    (nm ins lg : String) (hn : pkt.name = some nm) (hi : pkt.instruction = some ins)
    (hl : pkt.lang = some lg) :
    ((pkt.nprompts = 0 ∨ pkt.nprompts > KBDINT_MAX_PROMPT) →
      (ssh_packet_userauth_info_request pkt s).fatal_error = true ∧
      (ssh_packet_userauth_info_request pkt s).kbdint = none ∧
      (ssh_packet_userauth_info_request pkt s).auth_state = s.auth_state) ∧
    (1 ≤ pkt.nprompts → pkt.nprompts ≤ KBDINT_MAX_PROMPT →
      pkt.nprompts ≤ pkt.prompts.length →
      (ssh_packet_userauth_info_request pkt s).auth_state = AuthState.INFO ∧
      (ssh_packet_userauth_info_request pkt s).kbdint = some
        { name := nm, instruction := ins, nprompts := pkt.nprompts,
          prompts := (pkt.prompts.take pkt.nprompts).map Prod.fst,
          echo := (pkt.prompts.take pkt.nprompts).map Prod.snd,
          nanswers := pkt.nprompts, answers := none }) := by
  rcases pkt with ⟨pn, pi, pl, np, ps⟩
  simp only at hn hi hl
  subst hn; subst hi; subst hl
  constructor
  · intro hbad
    simp only [ssh_packet_userauth_info_request]
    rw [if_pos hbad]
    exact ⟨rfl, rfl, rfl⟩
  · intro h1 h2 h3
    dsimp only at h1 h2 h3
    have hcond : ¬(np = 0 ∨ np > KBDINT_MAX_PROMPT) := by omega
    have hlen : ¬(ps.length < np) := by omega
    simp only [ssh_packet_userauth_info_request]
    rw [if_neg hcond, if_neg hlen]
    exact ⟨rfl, rfl⟩

/-- An INFO_REQUEST announcing zero prompts. -/
def pktZero : InfoRequestPacket :=
  { name := some "PAM", instruction := some "", lang := some "",
    nprompts := 0, prompts := [] }

/-- A well-formed two-prompt INFO_REQUEST. -/
def pktTwo : InfoRequestPacket :=
  { name := some "PAM", instruction := some "Please authenticate", lang := some "",
    nprompts := 2, prompts := [("Password:", false), ("OTP:", true)] }

/-- Witness for C7 at the two concrete packets. -/
theorem info_request_prompt_validation_witness :
    ((ssh_packet_userauth_info_request pktZero baseSession).fatal_error = true ∧
     (ssh_packet_userauth_info_request pktZero baseSession).kbdint = none ∧
     (ssh_packet_userauth_info_request pktZero baseSession).auth_state =
       baseSession.auth_state) ∧
    ((ssh_packet_userauth_info_request pktTwo baseSession).auth_state =
       AuthState.INFO ∧
     (ssh_packet_userauth_info_request pktTwo baseSession).kbdint = some
       { name := "PAM", instruction := "Please authenticate", nprompts := 2,
         prompts := ["Password:", "OTP:"], echo := [false, true],
         nanswers := 2, answers := none }) :=
  ⟨(info_request_prompt_validation pktZero baseSession "PAM" "" "" rfl rfl rfl).1
     (Or.inl rfl),
   (info_request_prompt_validation pktTwo baseSession "PAM" "Please authenticate" ""
     rfl rfl rfl).2 (by decide) (by decide) (by decide)⟩

/-- An identity file whose .pub import fails with SSH_ERROR while
everything else about it would have succeeded. -/
def idBadPub : IdentityEnv :=
  { pub_import := PkiRc.ERR, priv_import := PkiRc.OK, export_pubkey := true,
    write_pubkey := true, offer_rc := AuthResult.SUCCESS, priv_import2 := PkiRc.OK,
    sign_rc := AuthResult.SUCCESS }

/-- An identity file on which the whole offer-and-sign path succeeds. -/
def idGood : IdentityEnv :=
  { pub_import := PkiRc.OK, priv_import := PkiRc.OK, export_pubkey := true,
    write_pubkey := true, offer_rc := AuthResult.SUCCESS, priv_import2 := PkiRc.OK,
    sign_rc := AuthResult.SUCCESS }

/-- C8 counterexample - the claim reads: a non-EOF failure to import
p + ".pub" is logged and iteration continues with the next identity.
In the code (lines 1052-1057) that failure sets a fatal error and
returns SSH_AUTH_ERROR at once: with a first identity whose .pub import
fails and a second on which authentication would succeed, the cascade
stops at the first (only "k1" is tried) and returns ERROR, although
alone the second identity gives SUCCESS. -/
theorem auto_pub_import_error_aborts_eval :
    ssh_userauth_publickey_auto_files [("k1", idBadPub), ("k2", idGood)] =
      (AuthResult.ERROR, ["k1"]) ∧
    ssh_userauth_publickey_auto_files [("k2", idGood)] =
      (AuthResult.SUCCESS, ["k2"]) := by
  decide

/-- C8 (amended): in the auto driver's identity-file loop, a non-EOF
failure importing p + ".pub" sets a fatal error and aborts the cascade
with AUTH_ERROR; a non-EOF failure importing the private key is logged
and iteration continues with the next identity; an AUTH_ERROR from the
offer or the sign step aborts; any identity whose step continues leaves
the rest of the list to be tried in order; and an exhausted list returns
AUTH_DENIED. -/
theorem auto_cascade_step_behaviour :
    (∀ (p : String) (e : IdentityEnv) (rest : List (String × IdentityEnv)),
      e.pub_import = PkiRc.ERR →
      ssh_userauth_publickey_auto_files ((p, e) :: rest) = (AuthResult.ERROR, [p])) ∧
    (∀ (p : String) (e : IdentityEnv) (rest : List (String × IdentityEnv)),
      e.pub_import = PkiRc.EOF → e.priv_import = PkiRc.ERR →
      ssh_userauth_publickey_auto_files ((p, e) :: rest) =
        ((ssh_userauth_publickey_auto_files rest).1,
         p :: (ssh_userauth_publickey_auto_files rest).2)) ∧
    (∀ (p : String) (e : IdentityEnv) (rest : List (String × IdentityEnv)),
      e.pub_import = PkiRc.OK → e.offer_rc = AuthResult.ERROR →
      ssh_userauth_publickey_auto_files ((p, e) :: rest) = (AuthResult.ERROR, [p])) ∧
    (∀ (p : String) (e : IdentityEnv) (rest : List (String × IdentityEnv)),
      e.pub_import = PkiRc.OK → e.offer_rc = AuthResult.SUCCESS →
      e.priv_import2 = PkiRc.OK → e.sign_rc = AuthResult.ERROR →
      ssh_userauth_publickey_auto_files ((p, e) :: rest) = (AuthResult.ERROR, [p])) ∧
    (∀ (p : String) (e : IdentityEnv) (rest : List (String × IdentityEnv)),
      auto_identity_step e = StepOutcome.next →
      ssh_userauth_publickey_auto_files ((p, e) :: rest) =
        ((ssh_userauth_publickey_auto_files rest).1,
         p :: (ssh_userauth_publickey_auto_files rest).2)) ∧
    ssh_userauth_publickey_auto_files [] = (AuthResult.DENIED, []) := by
  refine ⟨?_, ?_, ?_, ?_, ?_, rfl⟩
  · intro p e rest h
    simp [ssh_userauth_publickey_auto_files, auto_identity_step, h]
  · intro p e rest h1 h2
    simp [ssh_userauth_publickey_auto_files, auto_identity_step, h1, h2]
  · intro p e rest h1 h2
    simp [ssh_userauth_publickey_auto_files, auto_identity_step, auto_offer_step, h1, h2]
  · intro p e rest h1 h2 h3 h4
    simp [ssh_userauth_publickey_auto_files, auto_identity_step, auto_offer_step,
      auto_sign_step, h1, h2, h3, h4]
  · intro p e rest h
    simp [ssh_userauth_publickey_auto_files, h]

/-- An identity file whose private key cannot be read. -/
def idBadPriv : IdentityEnv :=
  { pub_import := PkiRc.EOF, priv_import := PkiRc.ERR, export_pubkey := true,
    write_pubkey := true, offer_rc := AuthResult.SUCCESS, priv_import2 := PkiRc.OK,
    sign_rc := AuthResult.SUCCESS }

/-- Witness for the amended C8 at concrete identity lists. -/
theorem auto_cascade_step_behaviour_witness :
    ssh_userauth_publickey_auto_files [("k1", idBadPub), ("k2", idGood)] =
      (AuthResult.ERROR, ["k1"]) ∧
    ssh_userauth_publickey_auto_files [("k1", idBadPriv), ("k2", idGood)] =
      ((ssh_userauth_publickey_auto_files [("k2", idGood)]).1,
       "k1" :: (ssh_userauth_publickey_auto_files [("k2", idGood)]).2) :=
  ⟨auto_cascade_step_behaviour.1 "k1" idBadPub [("k2", idGood)] rfl,
   auto_cascade_step_behaviour.2.1 "k1" idBadPriv [("k2", idGood)] rfl rfl⟩

/-- C9 counterexample - the claim reads: every public driver entry
called with a NULL session returns ERROR immediately.
ssh_userauth_none and ssh_userauth_password have no NULL check: their
first statement reads session->pending_call_state, so the call
dereferences the NULL pointer instead of returning. -/
theorem null_session_deref_eval :
    ssh_userauth_none envAgain none (none : Option Session) = EntryResult.nullDeref ∧
    (∀ after, ssh_userauth_none envAgain none (none : Option Session) ≠
      EntryResult.returns AuthResult.ERROR after) ∧
    ssh_userauth_password envAgain none "pw" (none : Option Session) =
      EntryResult.nullDeref := by
  refine ⟨rfl, ?_, rfl⟩
  intro after h
  cases h

/-- C9 (amended): of the public entry points, ssh_userauth_try_publickey,
ssh_userauth_publickey, ssh_userauth_agent, ssh_userauth_publickey_auto
and ssh_userauth_kbdint return ERROR immediately on a NULL session,
touching nothing; ssh_userauth_none and ssh_userauth_password perform no
check and dereference the NULL session. -/
theorem null_session_entry_behaviour :
    ∀ (env : DriverEnv) (u sub : Option String) (k : Option SshKey) (pw : String)
      (a : AgentEnv) (ids : List (String × IdentityEnv)),
      ssh_userauth_try_publickey env u k none =
        EntryResult.returns AuthResult.ERROR none ∧
      ssh_userauth_publickey env u k none =
        EntryResult.returns AuthResult.ERROR none ∧
      ssh_userauth_agent a none = EntryResult.returns AuthResult.ERROR none ∧
      ssh_userauth_publickey_auto a ids none =
        EntryResult.returns AuthResult.ERROR none ∧
      ssh_userauth_kbdint env u sub none =
        EntryResult.returns AuthResult.ERROR none ∧
      ssh_userauth_none env u none = EntryResult.nullDeref ∧
      ssh_userauth_password env u pw none = EntryResult.nullDeref :=
  fun _ _ _ _ _ _ _ => ⟨rfl, rfl, rfl, rfl, rfl, rfl, rfl⟩

/-- The agent identity loop returns SSH_AUTH_ERROR when every identity
is passed over (offer neither ERROR nor SUCCESS, or offer SUCCESS but
the signing call neither ERROR nor SUCCESS). -/
theorem agent_loop_exhausted (l : List (AuthResult × AuthResult))
    (h : ∀ x ∈ l, (x.1 ≠ AuthResult.ERROR ∧ x.1 ≠ AuthResult.SUCCESS) ∨
      (x.1 = AuthResult.SUCCESS ∧ x.2 ≠ AuthResult.ERROR ∧ x.2 ≠ AuthResult.SUCCESS)) :
    ssh_userauth_agent_loop l = AuthResult.ERROR := by
  induction l with
  | nil => rfl
  | cons hd tl ih =>
    have hhd := h hd (List.mem_cons_self hd tl)
    have htl := fun x hx => h x (List.mem_cons_of_mem hd hx)
    rcases hhd with ⟨h1, h2⟩ | ⟨h1, h2, h3⟩
    · simp [ssh_userauth_agent_loop, h1, h2, ih htl]
    · simp [ssh_userauth_agent_loop, h1, h2, h3, ih htl]

/-- C10: a running agent with no identities, and more generally a
running agent all of whose identities are exhausted without a SUCCESS
and without a fatal error, makes ssh_userauth_agent return AUTH_ERROR
(the loop falls through to line 977), not AUTH_DENIED; and because the
auto driver returns agent ERRORs at once (lines 1030-1033),
ssh_userauth_publickey_auto then returns AUTH_ERROR with the
identity-file list never tried. -/
theorem agent_exhaustion_returns_error :
    (∀ a : AgentEnv, a.running = true → a.identities = [] →
      ssh_userauth_agent_body a = AuthResult.ERROR) ∧
    (∀ a : AgentEnv, a.running = true →
      (∀ x ∈ a.identities, (x.1 ≠ AuthResult.ERROR ∧ x.1 ≠ AuthResult.SUCCESS) ∨
        (x.1 = AuthResult.SUCCESS ∧ x.2 ≠ AuthResult.ERROR ∧
         x.2 ≠ AuthResult.SUCCESS)) →
      ssh_userauth_agent_body a = AuthResult.ERROR) ∧
    (∀ (a : AgentEnv) (ids : List (String × IdentityEnv)), a.running = true →
      a.identities = [] →
      ssh_userauth_publickey_auto_body a ids = (AuthResult.ERROR, [])) := by
  refine ⟨?_, ?_, ?_⟩
  · intro a hr hid
    simp [ssh_userauth_agent_body, hr, hid, ssh_userauth_agent_loop]
  · intro a hr h
    simp [ssh_userauth_agent_body, hr, agent_loop_exhausted _ h]
  · intro a ids hr hid
    simp [ssh_userauth_publickey_auto_body, ssh_userauth_agent_body, hr, hid,
      ssh_userauth_agent_loop]

/-- A running agent holding no identities. -/
def agentEmpty : AgentEnv := { running := true, identities := [] }

/-- A running agent whose only identity is refused at the offer step. -/
def agentRefused : AgentEnv :=
  { running := true, identities := [(AuthResult.DENIED, AuthResult.DENIED)] }

/-- Witness for C10 at concrete agent environments. -/
theorem agent_exhaustion_returns_error_witness :
    ssh_userauth_agent_body agentEmpty = AuthResult.ERROR ∧
    ssh_userauth_agent_body agentRefused = AuthResult.ERROR ∧
    ssh_userauth_publickey_auto_body agentEmpty [("k2", idGood)] =
      (AuthResult.ERROR, []) :=
  ⟨agent_exhaustion_returns_error.1 agentEmpty rfl rfl,
   agent_exhaustion_returns_error.2.1 agentRefused rfl (by decide),
   agent_exhaustion_returns_error.2.2 agentEmpty [("k2", idGood)] rfl rfl⟩

end LibsshAuth
